import Mathlib

/-!
# GovHack hybrid query backend — verification of the core query pipeline

Shallow embedding of the decision logic of the GovHack backend
(`backend/apps/chat/ai_service.py`, `backend/apps/chat/rag_service.py`,
`backend/apps/chat/services.py`, `backend/apps/data_processing/views.py`):
intent classification, aggregation, lexical retrieval, hybrid composition
and confidence scoring.

Modelling conventions:
* Python floats and Decimals are modelled as exact rationals (`ℚ`);
  `round(x, n)` is modelled as round-half-to-even on rationals.
* Python dicts returned by the services are modelled as structures whose
  fields are the keys the downstream code reads; a key that may be absent
  is an `Option` or carries its `dict.get` default.
* Django querysets are modelled as Lean lists of rows.  `order_by` on a
  non-unique key leaves the relative order of ties to the database; we
  model it as a stable sort (ties keep their incoming order), which is one
  concrete refinement of that unspecified behaviour.
* Exceptions are modelled with `Except String`.
-/

namespace GovHack

/-! ## String helpers (Python `in`, `str.split()`, `str.lower()`) -/

/-- `startsList pat l` — `l` starts with `pat` (Python `str.startswith` on char lists). -/
def startsList : List Char → List Char → Bool
  | [], _ => true
  | _ :: _, [] => false
  | a :: as, b :: bs => a = b && startsList as bs

/-- `containsList pat l` — `pat` occurs as a contiguous sublist of `l`. -/
def containsList (pat : List Char) : List Char → Bool
  | [] => startsList pat []
  | c :: t => startsList pat (c :: t) || containsList pat t

/-- Python `pat in hay` on strings (substring containment). -/
def strContains (hay pat : String) : Bool :=
  containsList pat.toList hay.toList

/-- Python `s.lower()` (per-character lowering, as CPython does for ASCII). -/
def pyLower (s : String) : String :=
  ⟨s.data.map Char.toLower⟩

/-- Case-insensitive containment, Django `__icontains`. -/
def strIContains (hay pat : String) : Bool :=
  strContains (pyLower hay) (pyLower pat)

/-- Split a character list at whitespace (runs produce empty pieces,
filtered out below). -/
def splitWsAux : List Char → List Char → List String
  | [], acc => [⟨acc.reverse⟩]
  | c :: t, acc =>
    if c.isWhitespace then (⟨acc.reverse⟩ : String) :: splitWsAux t []
    else splitWsAux t (c :: acc)

/-- Python `s.lower().split()`: lower-case, split on whitespace runs, drop empties. -/
def pyWords (s : String) : List String :=
  (splitWsAux (pyLower s).data []).filter (fun w => w ≠ "")

/-! ## Python `round` on exact rationals -/

/-- Round to the nearest integer, halves to the even integer (Python `round`,
floats modelled as exact rationals). -/
def roundHalfEven (q : ℚ) : ℤ :=
  let f : ℤ := ⌊q⌋
  let r : ℚ := q - f
  if r < 1/2 then f
  else if 1/2 < r then f + 1
  else if f % 2 = 0 then f else f + 1

/-- Python `min(a, b)` on rationals (`a` when `a ≤ b`). -/
def pymin (a b : ℚ) : ℚ := if a ≤ b then a else b

/-- Python `max(a, b)` on rationals. -/
def pymax (a b : ℚ) : ℚ := if a ≤ b then b else a

/-- Python `round(q, n)`. -/
def pyRound (n : ℕ) (q : ℚ) : ℚ :=
  (roundHalfEven (q * 10 ^ n) : ℚ) / 10 ^ n

/-! ## Confidence scorers (claim C1, C10)

`AIQueryService._calculate_confidence` (chat flow) and
`calculate_confidence_score` (direct smart-query flow,
`apps/data_processing/views.py`) both read a handful of keys off the result
dict; `ResultView` holds exactly those values (`dict.get` defaults for
absent keys: empty list / 0). -/

/-- The keys of a query-result dict that the confidence scorers read.
`table_len` is the length of the `table_data` list (0 when the key is
absent or the list empty — both are falsy in Python); `record_count` is
`result.get('record_count', 0)`. -/
structure ResultView where
  method : String
  data_sources : List String
  table_len : ℕ
  record_count : ℕ
  deriving Repr, DecidableEq

/-- Method bonus shared by both scorers: SQL +0.3, RAG +0.2, HYBRID +0.4,
anything else +0. -/
def methodBonus (method : String) : ℚ :=
  if method = "SQL" then 3/10
  else if method = "RAG" then 2/10
  else if method = "HYBRID" then 4/10
  else 0

/-- `AIQueryService._calculate_confidence` (chat flow): base 0.5, method bonus
from the result's own `method` key, +0.1 if `len(data_sources) > 1`,
+0.1 if the result's `table_data` list is non-empty, capped at 1.0. -/
def calculate_confidence (r : ResultView) : ℚ :=
  pymin (1/2 + methodBonus r.method
      + (if 1 < r.data_sources.length then 1/10 else 0)
      + (if 0 < r.table_len then 1/10 else 0)) 1

/-- `calculate_confidence_score` (smart-query flow): base 0.5, method bonus
from the classification's `method`, +0.1 if `len(data_sources) > 1`,
+0.1 if `record_count > 0`, capped at 1.0. -/
def calculate_confidence_score (r : ResultView) (intentMethod : String) : ℚ :=
  pymin (1/2 + methodBonus intentMethod
      + (if 1 < r.data_sources.length then 1/10 else 0)
      + (if 0 < r.record_count then 1/10 else 0)) 1

/-- The scoring formula as the specification words it (§4.5): base 0.5 +
method bonus + 0.1 for more than one data source + 0.1 for a non-empty
breakdown/hit list, clamped to [0, 1]. -/
def spec_confidence (r : ResultView) : ℚ :=
  pymax 0 (pymin (1/2 + methodBonus r.method
      + (if 1 < r.data_sources.length then 1/10 else 0)
      + (if 0 < r.table_len then 1/10 else 0)) 1)

/-! ## Rule-based intent classification (claim C4)

`AIQueryService._rule_based_analysis`: the fallback classifier used when the
external model is unavailable. -/

def sql_keywords : List String :=
  ["total", "sum", "average", "avg", "top", "highest", "lowest", "compare",
   "budget", "amount", "rate", "percentage", "outlier"]

def rag_keywords : List String :=
  ["details", "about", "find", "who", "record", "information", "specific",
   "latest", "payment", "contract", "employee", "supplier"]

def hybrid_keywords : List String :=
  ["how much", "what is", "show me", "tell me about", "analysis"]

def fallback_departments : List String :=
  ["education", "health", "defence", "treasury", "transport"]

/-- `sum(1 for keyword in kws if keyword in query_lower)`. -/
def countCues (kws : List String) (queryLower : String) : ℕ :=
  (kws.filter (fun k => strContains queryLower k)).length

/-- The populated classification dict returned by `_rule_based_analysis`. -/
structure IntentClassification where
  method : String
  intent : String
  entities : List String
  query_type : String
  sql_hint : Option String
  rag_hint : Option String
  reasoning : String
  deriving Repr, DecidableEq

/-- `AIQueryService._rule_based_analysis`: lower-case the query, count cue
keywords from the three fixed sets by substring containment, pick HYBRID /
SQL / RAG, and extract department-name entities. -/
def rule_based_analysis (query : String) : IntentClassification :=
  let query_lower := pyLower query
  let entities := fallback_departments.filter (fun d => strContains query_lower d)
  let sql_score := countCues sql_keywords query_lower
  let rag_score := countCues rag_keywords query_lower
  let hybrid_score := countCues hybrid_keywords query_lower
  let method :=
    if 0 < hybrid_score ∧ (0 < sql_score ∨ 0 < rag_score) then "HYBRID"
    else if rag_score ≤ sql_score then "SQL"
    else "RAG"
  { method := method
    intent := method ++ " query about government data"
    entities := entities
    query_type := if method = "SQL" then "budget_summary" else "specific_lookup"
    sql_hint := if method = "SQL" ∨ method = "HYBRID" then
        some "Generate appropriate SQL query" else none
    rag_hint := if method = "RAG" ∨ method = "HYBRID" then
        some "Search relevant documents" else none
    reasoning := "Method chosen based on keywords: SQL(" ++ toString sql_score
      ++ "), RAG(" ++ toString rag_score ++ "), Hybrid(" ++ toString hybrid_score ++ ")" }

/-- The decision rule as the specification words it (§4.1): HYBRID if the
hybrid-cue count is positive and either other count is; otherwise SQL when
the SQL count is at least the RAG count; otherwise RAG. -/
def specDecisionRule (sqlCount ragCount hybridCount : ℕ) : String :=
  if 0 < hybridCount ∧ (0 < sqlCount ∨ 0 < ragCount) then "HYBRID"
  else if ragCount ≤ sqlCount then "SQL"
  else "RAG"

/-! ## Entity extraction (claim C5)

`GovernmentDataRetriever.extract_intent_and_entities`
(`apps/chat/services.py`): only the entity map is modelled here (the claim
concerns the `fiscal_year` entity); each vocabulary scan assigns into the
`entities` dict, later assignments overwriting earlier ones. -/

/-- Dict assignment `m[k] = v` on an association list. -/
def assocSet (m : List (String × String)) (k v : String) : List (String × String) :=
  match m with
  | [] => [(k, v)]
  | (k', v') :: t => if k = k' then (k, v) :: t else (k', v') :: assocSet t k v

/-- Dict lookup `m.get(k)`. -/
def assocGet (m : List (String × String)) (k : String) : Option String :=
  match m with
  | [] => none
  | (k', v) :: t => if k = k' then some v else assocGet t k

def entity_departments : List String :=
  ["health", "education", "defence", "defense", "treasury", "social services",
   "infrastructure", "agriculture", "environment", "home affairs",
   "finance", "foreign affairs", "industry", "communications",
   "attorney general", "prime minister", "immigration"]

def entity_portfolios : List String :=
  ["health and aged care", "education", "defence", "treasury",
   "social services", "infrastructure", "agriculture",
   "environment", "home affairs", "attorney general"]

def fiscal_year_labels : List String :=
  ["2024-25", "2023-24", "2025-26", "2022-23", "2026-27", "2027-28"]

def year_tokens : List String :=
  ["2024", "2023", "2022", "2021", "2020", "2025", "2026", "2027", "2028"]

def entity_programs : List String :=
  ["medicare", "ndis", "jobseeker", "aged care", "childcare", "university", "hospital"]

/-- `fy.replace('-', '')`. -/
def removeDashes (s : String) : String :=
  ⟨s.data.filter (fun c => c ≠ '-')⟩

/-- `f"{year}-{str(int(year)+1)[2:]}"` for a numeric year. -/
def fiscalLabelOf (y : ℕ) : String :=
  toString y ++ "-" ++ (⟨(toString (y + 1)).data.drop 2⟩ : String)

/-- Python `int` on one of the fixed 4-digit year tokens. -/
def yearVal (y : String) : ℕ :=
  y.data.foldl (fun n c => n * 10 + (c.toNat - 48)) 0

/-- The entity map built by `extract_intent_and_entities` (the intent label,
computed alongside, does not touch the `fiscal_year` key and is omitted). -/
def extract_entities (query : String) : List (String × String) :=
  let query_lower := pyLower query
  let e0 : List (String × String) := []
  let e1 := entity_departments.foldl
    (fun m d => if strContains query_lower d then assocSet m "department" d else m) e0
  let e2 := entity_portfolios.foldl
    (fun m p => if strContains query_lower p then assocSet m "portfolio" p else m) e1
  let e3 := fiscal_year_labels.foldl
    (fun m fy =>
      if strContains query fy || strContains query (removeDashes fy) then
        assocSet m "fiscal_year" fy
      else m) e2
  let e4 := year_tokens.foldl
    (fun m y =>
      if strContains query y then
        (if 2023 ≤ yearVal y then assocSet m "fiscal_year" (fiscalLabelOf (yearVal y)) else m)
      else m) e3
  let e5 := entity_programs.foldl
    (fun m p => if strContains query_lower p then assocSet m "program" p else m) e4
  e5

/-- The `fiscal_year` entity extracted from a query. -/
def extractedFiscalYear (query : String) : Option String :=
  assocGet (extract_entities query) "fiscal_year"

/-! ## Stable descending sort by a key

`order_by('-total_amount')` / `order_by('-created_at')` sort on a key,
descending; the relative order of equal keys is left to the database and is
modelled stably (ties keep their incoming order). -/

/-- `keyDesc f a b` : `a` comes no later than `b` when sorting by `f` descending. -/
def keyDesc {α β : Type} [LinearOrder β] (f : α → β) (a b : α) : Prop :=
  f b ≤ f a

instance {α β : Type} [LinearOrder β] (f : α → β) : DecidableRel (keyDesc f) :=
  fun a b => inferInstanceAs (Decidable (f b ≤ f a))

instance {α β : Type} [LinearOrder β] (f : α → β) : IsTotal α (keyDesc f) :=
  ⟨fun a b => le_total (f b) (f a)⟩

instance {α β : Type} [LinearOrder β] (f : α → β) : IsTrans α (keyDesc f) :=
  ⟨fun _ _ _ h1 h2 => le_trans h2 h1⟩

/-- Stable descending sort by key `f` (our model of Django `order_by('-f')`). -/
def sortByDesc {α β : Type} [LinearOrder β] (f : α → β) (l : List α) : List α :=
  l.insertionSort (keyDesc f)

/-! ## Aggregation query engine (claims C2, C6)

One row of the `BudgetExpense` ledger, restricted to the fields the
aggregations read.  `amount` is the nullable `amount_2024_25` column;
the name fields are nullable joins. -/

structure LedgerRow where
  portfolio : Option String
  department : Option String
  program : Option String
  amount : Option ℚ
  deriving Repr, DecidableEq

/-- `x or 'Unknown'` on a nullable name (both NULL and `''` are falsy). -/
def orUnknown : Option String → String
  | none => "Unknown"
  | some s => if s = "" then "Unknown" else s

/-- One group of a `values(...).annotate(total_amount=Sum, count=Count)`:
group key, summed amount, row count. -/
structure Group (κ : Type) where
  key : κ
  total_amount : ℚ
  count : ℕ
  deriving Repr, DecidableEq

/-- Add one row's amount to the group list (first-occurrence group order). -/
def addToGroups {κ : Type} [DecidableEq κ] :
    List (Group κ) → κ → ℚ → List (Group κ)
  | [], k, a => [⟨k, a, 1⟩]
  | g :: t, k, a =>
    if g.key = k then ⟨g.key, g.total_amount + a, g.count + 1⟩ :: t
    else g :: addToGroups t k a

/-- `values(key).annotate(total_amount=Sum('amount_2024_25'), count=Count('id'))`
over the rows whose amount is non-null, groups listed in first-occurrence
order. -/
def groupSums {κ : Type} [DecidableEq κ] (key : LedgerRow → κ)
    (rows : List LedgerRow) : List (Group κ) :=
  rows.foldl
    (fun gs r => match r.amount with
      | none => gs
      | some a => addToGroups gs (key r) a) []

/-- Rows whose `amount_2024_25` is non-null (`amount_2024_25__isnull=False`). -/
def nonNullRows (rows : List LedgerRow) : List LedgerRow :=
  rows.filter (fun r => r.amount ≠ none)

/-- `Sum('amount_2024_25')` over a queryset (`or 0` on the empty set). -/
def sumAmounts (rows : List LedgerRow) : ℚ :=
  (rows.filterMap (fun r => r.amount)).sum

/-- Education filter of `_get_education_budget_summary` /
`get_education_budget_analysis`:
`Q(portfolio__name__icontains='education') | Q(department__name__icontains='education')`
(NULL matches nothing). -/
def isEducationRow (r : LedgerRow) : Bool :=
  (match r.portfolio with | some p => strIContains p "education" | none => false) ||
  (match r.department with | some d => strIContains d "education" | none => false)

/-- A breakdown row `{'department': …, 'amount': …, 'percentage': …}`. -/
structure PctRow where
  label : String
  amount : ℚ
  percentage : ℚ
  deriving Repr, DecidableEq

/-- Output shape of the chat-flow aggregation helpers. -/
structure EduSummary where
  answer : String
  total_amount : ℚ
  breakdown : List PctRow
  rows : ℕ
  deriving Repr, DecidableEq

/-- `AIQueryService._get_education_budget_summary`: filter education rows with
a non-null amount, total them, group by department sorted by total
descending, and build percentage rows for the first 5 groups, guarding the
zero total and rounding to 1 decimal. -/
def get_education_budget_summary (rows : List LedgerRow) : EduSummary :=
  let education_expenses := nonNullRows (rows.filter isEducationRow)
  let total_budget := sumAmounts education_expenses
  let dept_breakdown :=
    sortByDesc Group.total_amount (groupSums LedgerRow.department education_expenses)
  let table_data := (dept_breakdown.take 5).map (fun g =>
    let percentage : ℚ := if 0 < total_budget then g.total_amount / total_budget * 100 else 0
    { label := orUnknown g.key
      amount := g.total_amount
      percentage := pyRound 1 percentage })
  { answer := "What is the total education budget for 2024?"
    total_amount := total_budget
    breakdown := table_data
    rows := education_expenses.length }

/-- `AIQueryService._get_department_comparison`: group all non-null rows by
portfolio, sort by total descending, keep the top 10, total those, and
attach guarded percentages rounded to 1 decimal. -/
def get_department_comparison (rows : List LedgerRow) : EduSummary :=
  let portfolio_summary :=
    (sortByDesc Group.total_amount (groupSums LedgerRow.portfolio (nonNullRows rows))).take 10
  let total_all := (portfolio_summary.map Group.total_amount).sum
  let table_data := portfolio_summary.map (fun g =>
    let percentage : ℚ := if 0 < total_all then g.total_amount / total_all * 100 else 0
    { label := orUnknown g.key
      amount := g.total_amount
      percentage := pyRound 1 percentage })
  { answer := "Department budget comparison for 2024"
    total_amount := total_all
    breakdown := table_data
    rows := (portfolio_summary.map Group.count).sum }

/-- A top-expenses breakdown row
`{'portfolio': …, 'department': …, 'program': …, 'amount': …}`. -/
structure TopRow where
  portfolio : String
  department : String
  program : String
  amount : ℚ
  deriving Repr, DecidableEq

/-- Output shape of the top-expenses aggregations. -/
structure TopSummary where
  answer : String
  total_amount : ℚ
  breakdown : List TopRow
  rows : ℕ
  deriving Repr, DecidableEq

/-- The grouping key of the top-expenses aggregations:
`values('portfolio__name', 'department__name', 'program__name')`. -/
def tripleKey (r : LedgerRow) : Option String × Option String × Option String :=
  (r.portfolio, r.department, r.program)

/-- `AIQueryService._get_top_expenses` (chat flow): group non-null rows by
(portfolio, department, program), order by summed amount descending, keep
the first 10; the summary total sums the kept groups' amounts. -/
def get_top_expenses (rows : List LedgerRow) : TopSummary :=
  let top_expenses :=
    (sortByDesc Group.total_amount (groupSums tripleKey (nonNullRows rows))).take 10
  let table_data := top_expenses.map (fun g =>
    { portfolio := orUnknown g.key.1
      department := orUnknown g.key.2.1
      program := orUnknown g.key.2.2
      amount := g.total_amount })
  { answer := "Top 10 budget expenses by amount for 2024"
    total_amount := (top_expenses.map Group.total_amount).sum
    breakdown := table_data
    rows := top_expenses.length }

/-- `get_top_expenses_analysis` (smart-query flow): the same pipeline as
`_get_top_expenses`, with `total_records = len(breakdown)` and the total
summed over the breakdown rows. -/
def get_top_expenses_analysis (rows : List LedgerRow) : TopSummary :=
  let top_expenses :=
    (sortByDesc Group.total_amount (groupSums tripleKey (nonNullRows rows))).take 10
  let breakdown := top_expenses.map (fun g =>
    { portfolio := orUnknown g.key.1
      department := orUnknown g.key.2.1
      program := orUnknown g.key.2.2
      amount := g.total_amount : TopRow })
  { answer := "Top 10 expenses"
    total_amount := (breakdown.map TopRow.amount).sum
    breakdown := breakdown
    rows := breakdown.length }

/-- An average-budget breakdown row. -/
structure AvgRow where
  portfolio : String
  program : String
  average_amount : ℚ
  deriving Repr, DecidableEq

/-- `AIQueryService._get_average_budgets`: group non-null rows by
(portfolio, program), average each group, order by average descending. -/
def get_average_budgets (rows : List LedgerRow) : (List AvgRow × ℚ × ℕ) :=
  let grouped := groupSums (fun r => (r.portfolio, r.program)) (nonNullRows rows)
  let average_budgets :=
    sortByDesc (fun g : Group (Option String × Option String) =>
      g.total_amount / (g.count : ℚ)) grouped
  let table_data := average_budgets.map (fun g =>
    { portfolio := orUnknown g.key.1
      program := orUnknown g.key.2
      average_amount := g.total_amount / (g.count : ℚ) })
  (table_data, (average_budgets.map (fun g => g.total_amount / (g.count : ℚ))).sum,
    average_budgets.length)

/-- `AIQueryService._get_general_budget_summary`: count and total of the
non-null rows. -/
def get_general_budget_summary (rows : List LedgerRow) : ℚ × ℕ :=
  (sumAmounts (nonNullRows rows), (nonNullRows rows).length)

/-! ### Smart-query flow aggregations (`apps/data_processing/views.py`) -/

/-- A portfolio-comparison breakdown row of the smart-query flow; the
`percentage` key is patched in by a second loop. -/
structure PortfolioRow where
  portfolio : String
  amount : ℚ
  program_count : ℕ
  percentage : ℚ
  deriving Repr, DecidableEq

/-- Output of `get_portfolio_comparison_analysis`. -/
structure PortfolioComparison where
  total_budget : ℚ
  total_records : ℕ
  breakdown : List PortfolioRow
  deriving Repr, DecidableEq

/-- `item['amount'] / total_budget * 100` rounded to 2 decimals — raises
`ZeroDivisionError` when the total is 0 (there is no guard in this
function). -/
def pctOfTotal (total amount : ℚ) : Except String ℚ :=
  if total = 0 then Except.error "ZeroDivisionError: float division by zero"
  else Except.ok (pyRound 2 (amount / total * 100))

/-- The `for item in breakdown:` loop of `get_portfolio_comparison_analysis`
that patches the percentage into each row, stopping with `ZeroDivisionError`
at the first row when the total is 0. -/
def pctLoop (total : ℚ) : List (Group (Option String)) → Except String (List PortfolioRow)
  | [] => Except.ok []
  | g :: t => do
    let p ← pctOfTotal total g.total_amount
    let rest ← pctLoop total t
    Except.ok ({ portfolio := orUnknown g.key
                 amount := g.total_amount
                 program_count := g.count
                 percentage := p : PortfolioRow } :: rest)

/-- `get_portfolio_comparison_analysis` (smart-query flow): group non-null
rows by portfolio, sort by total descending, sum the amounts, then patch a
percentage — `round(amount / total_budget * 100, 2)` with no zero guard —
into every breakdown row. -/
def get_portfolio_comparison_analysis (rows : List LedgerRow) :
    Except String PortfolioComparison := do
  let portfolio_analysis :=
    sortByDesc Group.total_amount (groupSums LedgerRow.portfolio (nonNullRows rows))
  let total_budget := (portfolio_analysis.map Group.total_amount).sum
  let breakdown ← pctLoop total_budget portfolio_analysis
  pure { total_budget := total_budget
         total_records := breakdown.length
         breakdown := breakdown }

/-- `get_education_budget_analysis` (smart-query flow): education rows grouped
by portfolio, percentages guarded but rounded to 2 decimals. -/
def get_education_budget_analysis (rows : List LedgerRow) : EduSummary :=
  let education_expenses := nonNullRows (rows.filter isEducationRow)
  let total_budget := sumAmounts education_expenses
  let portfolio_breakdown :=
    sortByDesc Group.total_amount (groupSums LedgerRow.portfolio education_expenses)
  let breakdown := portfolio_breakdown.map (fun g =>
    let percentage : ℚ := if 0 < total_budget then g.total_amount / total_budget * 100 else 0
    { label := orUnknown g.key
      amount := g.total_amount
      percentage := pyRound 2 percentage })
  { answer := "Education portfolio budget analysis"
    total_amount := total_budget
    breakdown := breakdown
    rows := education_expenses.length }

/-! ## Lexical retrieval engine (claims C7, C8, C9)

`RAGService` (`apps/chat/rag_service.py`). -/

/-- `RAGService.__init__`: the retrieval pool size. -/
def rag_top_k : ℕ := 5

/-- One stored `DocumentVector` row.  `created_at` is the indexing timestamp
(larger = more recent); `resolvable` records whether the underlying source
record still exists (`_get_record_from_vector` succeeds). -/
structure Doc where
  source_table : String
  record_id : String
  content_text : String
  content_hash : String
  created_at : ℕ
  resolvable : Bool
  deriving Repr, DecidableEq

/-- One retrieval hit of `search_documents`. -/
structure Hit where
  source_table : String
  record_id : String
  content_text : String
  relevance_score : ℚ
  deriving Repr, DecidableEq

/-- The word set `set(s.lower().split())` of a Python string. -/
def tokenSet (s : String) : Finset String :=
  (pyWords s).toFinset

/-- `RAGService._calculate_relevance`: 0.6 · Jaccard of the two word sets
plus 0.4 · keyword density (|intersection| / |content words|), capped at
1.0; 0 when either word set is empty. -/
def calculate_relevance (query content : String) : ℚ :=
  let query_words := tokenSet query
  let content_words := tokenSet content
  if query_words = ∅ ∨ content_words = ∅ then 0
  else
    let intersection := query_words ∩ content_words
    let union := query_words ∪ content_words
    let jaccard : ℚ := if union = ∅ then 0 else (intersection.card : ℚ) / union.card
    let keyword_density : ℚ :=
      if content_words = ∅ then 0 else (intersection.card : ℚ) / content_words.card
    pymin (jaccard * (6/10) + keyword_density * (4/10)) 1

/-- The relevance formula as the specification words it (§4.3):
`0.6 * Jaccard(queryTokens, docTokens) + 0.4 * (|intersection| / |docTokens|)`
clamped to [0, 1], with empty token sets scoring 0. -/
def spec_relevance (query content : String) : ℚ :=
  let q := tokenSet query
  let d := tokenSet content
  if q = ∅ ∨ d = ∅ then 0
  else
    pymax 0 (pymin (6/10 * ((q ∩ d).card : ℚ) / (q ∪ d).card
      + 4/10 * ((q ∩ d).card : ℚ) / d.card) 1)

/-- The candidate condition built up in `search_documents`:
`q_objects = Q()`, then `q_objects &= Q(source_table=table_filter)` when a
filter is given, then `q_objects |= Q(content_text__icontains=word)` for
every query word longer than 2 characters.  Because the word conditions are
attached with OR, a table filter is an *alternative* to the word matches,
not a restriction; and with no filter and no long word the empty `Q()`
matches every document. -/
def searchCondition (table_filter : Option String) (longWords : List String)
    (d : Doc) : Bool :=
  match table_filter, longWords with
  | none, [] => true
  | none, ws => ws.any (fun w => strIContains d.content_text w)
  | some f, [] => d.source_table = f
  | some f, ws => d.source_table = f || ws.any (fun w => strIContains d.content_text w)

/-- `RAGService.search_documents`: filter candidates with `searchCondition`,
order by `-created_at`, keep the first `top_k = 5`, drop documents whose
source record no longer resolves, score the rest, and sort by relevance
descending (Python's stable `list.sort`). -/
def search_documents (query : String) (table_filter : Option String)
    (docs : List Doc) : List Hit :=
  let query_words := pyWords query
  let longWords := query_words.filter (fun w => 2 < w.length)
  let vectors := (sortByDesc Doc.created_at (docs.filter
    (searchCondition table_filter longWords))).take rag_top_k
  let results := vectors.filterMap (fun d =>
    if d.resolvable then
      some { source_table := d.source_table
             record_id := d.record_id
             content_text := d.content_text
             relevance_score := calculate_relevance query d.content_text : Hit }
    else none)
  sortByDesc Hit.relevance_score results

/-! ### Indexing (claim C9) -/

/-- The content hash of a canonical text.  `hashlib.sha256(...).hexdigest()`
is a fixed function of the text; its internals are outside the repository,
so it is modelled as an (injective) encoding of the text itself — the
claims need only that equal texts yield equal hashes. -/
def sha256 (s : String) : String := s

/-- `' | '.join([part for part in content_parts if part])`. -/
def joinParts (parts : List String) : String :=
  String.intercalate " | " (parts.filter (fun p => p ≠ ""))

/-- A `FinanceRecord` (fields read by `_vectorize_finance_record`); `none`
models a null/empty (falsy) optional field. -/
structure FinanceRecord where
  id : ℕ
  record_type_display : String
  department : String
  amount : ℚ
  currency : String
  transaction_date : String
  reference_number : String
  description : String
  supplier_name : Option String
  account_code : Option String
  status : String
  approval_status : String
  deriving Repr, DecidableEq

/-- Canonical text built by `_vectorize_finance_record`. -/
def financeCanonicalText (r : FinanceRecord) : String :=
  joinParts [
    "财务记录类型: " ++ r.record_type_display,
    "部门: " ++ r.department,
    "金额: " ++ toString r.amount ++ " " ++ r.currency,
    "交易日期: " ++ r.transaction_date,
    "参考编号: " ++ r.reference_number,
    "描述: " ++ r.description,
    (match r.supplier_name with | some s => "供应商: " ++ s | none => ""),
    (match r.account_code with | some c => "账户代码: " ++ c | none => ""),
    "状态: " ++ r.status,
    "审批状态: " ++ r.approval_status]

/-- A `ProcurementRecord` (fields read by `_vectorize_procurement_record`). -/
structure ProcurementRecord where
  id : ℕ
  record_type_display : String
  department : String
  contract_number : String
  supplier_name : String
  supplier_abn : Option String
  description : String
  contract_value : ℚ
  start_date : String
  end_date : String
  category : String
  subcategory : Option String
  status : String
  approval_status : String
  deriving Repr, DecidableEq

/-- Canonical text built by `_vectorize_procurement_record`. -/
def procurementCanonicalText (r : ProcurementRecord) : String :=
  joinParts [
    "采购记录类型: " ++ r.record_type_display,
    "部门: " ++ r.department,
    "合同编号: " ++ r.contract_number,
    "供应商名称: " ++ r.supplier_name,
    (match r.supplier_abn with | some a => "供应商ABN: " ++ a | none => ""),
    "描述: " ++ r.description,
    "合同价值: " ++ toString r.contract_value,
    "开始日期: " ++ r.start_date,
    "结束日期: " ++ r.end_date,
    "采购类别: " ++ r.category,
    (match r.subcategory with | some s => "子类别: " ++ s | none => ""),
    "状态: " ++ r.status,
    "审批状态: " ++ r.approval_status]

/-- An `HRRecord` (fields read by `_vectorize_hr_record`). -/
structure HRRecord where
  id : ℕ
  record_type_display : String
  department : String
  employee_id : String
  employee_name : String
  position : String
  employment_type : String
  description : String
  start_date : String
  end_date : Option String
  amount : Option ℚ
  days : Option ℕ
  status : String
  approval_status : String
  deriving Repr, DecidableEq

/-- Canonical text built by `_vectorize_hr_record`. -/
def hrCanonicalText (r : HRRecord) : String :=
  joinParts [
    "人力资源记录类型: " ++ r.record_type_display,
    "部门: " ++ r.department,
    "员工ID: " ++ r.employee_id,
    "员工姓名: " ++ r.employee_name,
    "职位: " ++ r.position,
    "雇佣类型: " ++ r.employment_type,
    "描述: " ++ r.description,
    "开始日期: " ++ r.start_date,
    (match r.end_date with | some d => "结束日期: " ++ d | none => ""),
    (match r.amount with | some a => "金额: " ++ toString a | none => ""),
    (match r.days with | some d => "天数: " ++ toString d | none => ""),
    "状态: " ++ r.status,
    "审批状态: " ++ r.approval_status]

/-- The common tail of the three `_vectorize_*_record` methods: hash the
canonical text; if a `DocumentVector` with that hash exists, return the
store unchanged; otherwise append a new entry.  `now` is the creation
timestamp of a new entry. -/
def vectorizeStep (store : List Doc) (source_table record_id text : String)
    (now : ℕ) : List Doc :=
  let content_hash := sha256 text
  if store.any (fun d => d.content_hash = content_hash) then store
  else store ++ [{ source_table := source_table
                   record_id := record_id
                   content_text := text
                   content_hash := content_hash
                   created_at := now
                   resolvable := true : Doc }]

/-- `RAGService._vectorize_finance_record`. -/
def vectorize_finance_record (store : List Doc) (r : FinanceRecord) (now : ℕ) :
    List Doc :=
  vectorizeStep store "finance_records" (toString r.id) (financeCanonicalText r) now

/-- `RAGService._vectorize_hr_record`. -/
def vectorize_hr_record (store : List Doc) (r : HRRecord) (now : ℕ) : List Doc :=
  vectorizeStep store "hr_records" (toString r.id) (hrCanonicalText r) now

/-- `RAGService._vectorize_procurement_record`. -/
def vectorize_procurement_record (store : List Doc) (r : ProcurementRecord)
    (now : ℕ) : List Doc :=
  vectorizeStep store "procurement_records" (toString r.id) (procurementCanonicalText r) now

/-! ## Chat query flow (claims C3, C10)

`AIQueryService._process_sql_query`, `_process_rag_query`,
`_process_hybrid_query` and `process_query`. -/

/-- A sub-engine result dict, restricted to the keys read downstream
(`success`, `method`, `data_sources`, `table_data` length, `metadata.rows`,
`error`, and the `confidence` value some failure dicts carry before
`process_query` overwrites it). -/
structure SubResult where
  success : Bool
  method : String
  answer : String
  data_sources : List String
  table_len : ℕ
  rows_meta : ℕ
  error : Option String
  confidence0 : Option ℚ
  deriving Repr, DecidableEq

/-- Outcome of the ledger access underlying `_process_sql_query`:
`ok` — the queryset evaluates to these rows; `helperError` — an exception
inside the chosen `_get_*` helper, caught there (the helper returns its
zero-valued fallback dict); `outerError` — an exception in
`_process_sql_query` itself, caught by its own `except`. -/
inductive SqlEnv where
  | ok (rows : List LedgerRow)
  | helperError (msg : String)
  | outerError (msg : String)
  deriving Repr, DecidableEq

/-- Which aggregation `_process_sql_query` dispatches to, by ordered
substring match on the query text. -/
inductive SqlKind where
  | education | comparison | top | averages | general
  deriving Repr, DecidableEq

/-- The ordered if-chain of `_process_sql_query` (note: the `'10'` test is on
the raw query, the rest on the lower-cased query). -/
def sqlDispatch (query : String) : SqlKind :=
  let ql := pyLower query
  if strContains ql "education" && (strContains ql "total" || strContains ql "budget") then
    .education
  else if strContains ql "department" && (strContains ql "compare" || strContains ql "comparison") then
    .comparison
  else if strContains ql "top" && (strContains query "10" || strContains ql "highest") then
    .top
  else if strContains ql "average" || strContains ql "avg" then
    .averages
  else .general

/-- `AIQueryService._process_sql_query`: dispatch to an aggregation helper and
wrap its output as a successful SQL result with the fixed data-source list;
a helper-level error still yields a success dict around the helper's
zero-valued fallback; only an exception in `_process_sql_query` itself
yields a failure dict (with `confidence = 0.0`). -/
def process_sql_query (query : String) (env : SqlEnv) : SubResult :=
  match env with
  | .outerError e =>
    { success := false, method := "SQL", answer := "", data_sources := []
      table_len := 0, rows_meta := 0, error := some e, confidence0 := some 0 }
  | .helperError e =>
    { success := true, method := "SQL"
      answer := "Error: " ++ e
      data_sources := ["budget_expenses", "portfolios", "departments"]
      table_len := 0, rows_meta := 0, error := none, confidence0 := none }
  | .ok rows =>
    let out : String × ℕ × ℕ :=  -- answer, |table_data|, metadata.rows
      match sqlDispatch query with
      | .education =>
        let s := get_education_budget_summary rows
        (s.answer, s.breakdown.length, s.rows)
      | .comparison =>
        let s := get_department_comparison rows
        (s.answer, s.breakdown.length, s.rows)
      | .top =>
        let s := get_top_expenses rows
        (s.answer, s.breakdown.length, s.rows)
      | .averages =>
        let (table, _, n) := get_average_budgets rows
        ("Average budget by portfolio and program for 2024", table.length, n)
      | .general =>
        let (_, n) := get_general_budget_summary rows
        ("General budget summary for 2024", 0, n)
    { success := true, method := "SQL", answer := out.1
      data_sources := ["budget_expenses", "portfolios", "departments"]
      table_len := out.2.1, rows_meta := out.2.2, error := none, confidence0 := none }

/-- `AIQueryService._process_rag_query`: search the index; a non-empty hit
list is a success whose data sources are the distinct source tables of the
hits; an empty hit list is a failure dict with `confidence = 0.0`;
`Except.error` models an exception caught by the method's `except`. -/
def process_rag_query (query : String) (env : Except String (List Doc)) : SubResult :=
  match env with
  | .error e =>
    { success := false, method := "RAG", answer := "", data_sources := []
      table_len := 0, rows_meta := 0, error := some e, confidence0 := some 0 }
  | .ok docs =>
    let search_results := search_documents query none docs
    if search_results.length ≠ 0 then
      { success := true, method := "RAG"
        answer := "Found " ++ toString search_results.length ++ " records"
        data_sources := (search_results.map Hit.source_table).dedup
        table_len := search_results.length
        rows_meta := search_results.length
        error := none, confidence0 := none }
    else
      { success := false, method := "RAG"
        answer := "抱歉，没有找到与 '" ++ query ++ "' 相关的记录。"
        data_sources := [], table_len := 0, rows_meta := 0
        error := none, confidence0 := some 0 }

/-- The dict returned by `_process_hybrid_query`: always `success: True`,
method HYBRID, each side present only when it succeeded, data sources the
(deduplicated) union of the successful sides'.  The dict carries no
`table_data` key. -/
structure HybridResult where
  success : Bool
  method : String
  sql_result : Option SubResult
  rag_result : Option SubResult
  data_sources : List String
  deriving Repr, DecidableEq

/-- `AIQueryService._process_hybrid_query` over the two sub-results (the
method body raises no exception of its own: both sub-calls catch theirs). -/
def process_hybrid_query (sql_result rag_result : SubResult) : HybridResult :=
  { success := true
    method := "HYBRID"
    sql_result := if sql_result.success then some sql_result else none
    rag_result := if rag_result.success then some rag_result else none
    data_sources :=
      ((if sql_result.success then sql_result.data_sources else []) ++
       (if rag_result.success then rag_result.data_sources else [])).dedup }

/-- The response dict of `process_query`, restricted to the keys the claims
read. -/
structure TopResult where
  success : Bool
  method : String
  data_sources : List String
  table_len : ℕ
  sql_result : Option SubResult
  rag_result : Option SubResult
  error : Option String
  confidence : ℚ
  deriving Repr, DecidableEq

/-- The `ResultView` a `TopResult` presents to `_calculate_confidence`
(`record_count` is absent from every chat-flow dict, so it defaults to 0). -/
def TopResult.view (r : TopResult) : ResultView :=
  { method := r.method, data_sources := r.data_sources
    table_len := r.table_len, record_count := 0 }

/-- A SQL or RAG sub-result promoted to the response dict (before the
confidence step). -/
def subToTop (s : SubResult) : TopResult :=
  { success := s.success, method := s.method, data_sources := s.data_sources
    table_len := s.table_len, sql_result := none, rag_result := none
    error := s.error, confidence := 0 }

/-- A hybrid result promoted to the response dict (it has no `table_data`
key, so `table_len = 0`). -/
def hybridToTop (h : HybridResult) : TopResult :=
  { success := h.success, method := h.method, data_sources := h.data_sources
    table_len := 0, sql_result := h.sql_result, rag_result := h.rag_result
    error := none, confidence := 0 }

/-- `AIQueryService.process_query`, normal path: dispatch on the classified
method (`'SQL'`, `'RAG'`, anything else → hybrid), then overwrite the
result's `confidence` with `_calculate_confidence(result)`.  (The evidence
package, attached afterwards, does not feed back into any claim and is not
modelled.) -/
def process_query (intentMethod query : String) (sqlEnv : SqlEnv)
    (ragEnv : Except String (List Doc)) : TopResult :=
  let result :=
    if intentMethod = "SQL" then subToTop (process_sql_query query sqlEnv)
    else if intentMethod = "RAG" then subToTop (process_rag_query query ragEnv)
    else hybridToTop (process_hybrid_query
      (process_sql_query query sqlEnv) (process_rag_query query ragEnv))
  { result with confidence := calculate_confidence result.view }

/-- `AIQueryService.process_query`, top-level `except` path: a failure dict
with `confidence = 0.0` and no `method` key. -/
def process_query_exception (e : String) : TopResult :=
  { success := false, method := "", data_sources := [], table_len := 0
    sql_result := none, rag_result := none, error := some e, confidence := 0 }

/-- The sorted portfolio grouping underlying
`get_portfolio_comparison_analysis` (exposed for the statements below). -/
def portfolioGroups (rows : List LedgerRow) : List (Group (Option String)) :=
  sortByDesc Group.total_amount (groupSums LedgerRow.portfolio (nonNullRows rows))

/-! ## Concrete sample data used by witnesses and counterexamples -/

/-- A result view whose `table_data` is non-empty while its `record_count`
is 0 (e.g. a chat-flow dict, which never carries a `record_count` key). -/
def exViewTable : ResultView :=
  { method := "SQL", data_sources := [], table_len := 1, record_count := 0 }

/-- A result view with an empty breakdown and no records. -/
def exViewEmpty : ResultView :=
  { method := "RAG", data_sources := ["finance_records", "hr_records"],
    table_len := 0, record_count := 0 }

/-- A successful SQL sub-result. -/
def exSqlOk : SubResult :=
  { success := true, method := "SQL", answer := "ok"
    data_sources := ["budget_expenses", "portfolios", "departments"]
    table_len := 2, rows_meta := 2, error := none, confidence0 := none }

/-- A failed RAG sub-result (empty search). -/
def exRagFail : SubResult :=
  { success := false, method := "RAG", answer := "no records"
    data_sources := [], table_len := 0, rows_meta := 0
    error := none, confidence0 := some 0 }

/-- A failed SQL sub-result (exception in `_process_sql_query`). -/
def exSqlFail : SubResult :=
  { success := false, method := "SQL", answer := ""
    data_sources := [], table_len := 0, rows_meta := 0
    error := some "db down", confidence0 := some 0 }

/-- A successful RAG sub-result. -/
def exRagOk : SubResult :=
  { success := true, method := "RAG", answer := "Found 1 records"
    data_sources := ["procurement_records"], table_len := 1, rows_meta := 1
    error := none, confidence0 := none }

/-- Ledger rows for the percentage counterexamples. -/
def exRowZero : LedgerRow := ⟨some "A", none, none, some 0⟩

def exRowA1 : LedgerRow := ⟨some "A", none, none, some 1⟩

def exRowB2 : LedgerRow := ⟨some "B", none, none, some 2⟩

/-- Ledger rows with equal amounts whose first-occurrence order is by
descending portfolio name. -/
def rowB : LedgerRow := ⟨some "B", some "D", some "P", some 5⟩

def rowA : LedgerRow := ⟨some "A", some "D", some "P", some 5⟩

/-- An indexed HR document mentioning contracts. -/
def exHrDoc : Doc :=
  ⟨"hr_records", "7", "contract termination details", "contract termination details", 3, true⟩

/-- An indexed finance document that shares no token with the queries used
against it. -/
def exFinDoc : Doc :=
  ⟨"finance_records", "1", "alpha beta", "alpha beta", 1, true⟩

/-- Lexicographic (code-point) order on character lists. -/
def charListLe : List Char → List Char → Bool
  | [], _ => true
  | _ :: _, [] => false
  | a :: as, b :: bs => if a = b then charListLe as bs else decide (a < b)

/-- Lexicographic (code-point) order on strings — "ascending name". -/
def strLe (a b : String) : Bool := charListLe a.data b.data

/-- The claimed ordering property of C6 (continued): any two breakdown rows
with equal amounts appear in ascending group-name order. -/
def tieBreakAscending (l : List TopRow) : Prop :=
  List.Pairwise (fun a b => a.amount = b.amount → strLe a.portfolio b.portfolio = true) l

/-- A sample finance record. -/
def exFinanceRecord : FinanceRecord :=
  { id := 4, record_type_display := "付款", department := "Education"
    amount := 100, currency := "AUD", transaction_date := "2024-07-01"
    reference_number := "INV-1", description := "desk"
    supplier_name := some "Acme", account_code := none
    status := "completed", approval_status := "approved" }

/-- A sample HR record. -/
def exHRRecord : HRRecord :=
  { id := 9, record_type_display := "雇佣", department := "Health"
    employee_id := "E9", employee_name := "Kim", position := "Analyst"
    employment_type := "full-time", description := "hire"
    start_date := "2024-01-01", end_date := none, amount := none, days := none
    status := "active", approval_status := "approved" }

/-- A sample procurement record. -/
def exProcurementRecord : ProcurementRecord :=
  { id := 2, record_type_display := "合同", department := "Defence"
    contract_number := "C-2", supplier_name := "Supplier Company 1"
    supplier_abn := none, description := "services", contract_value := 5000
    start_date := "2024-01-01", end_date := "2025-01-01", category := "IT"
    subcategory := none, status := "active", approval_status := "approved" }

/-- An index store already holding the canonical text of
`exFinanceRecord`. -/
def exStore : List Doc := vectorize_finance_record [] exFinanceRecord 0

/-! # Theorems -/

/-! ## Shared helper lemmas -/

theorem pymin_eq_min (a b : ℚ) : pymin a b = min a b := (min_def a b).symm

theorem pymax_eq_max (a b : ℚ) : pymax a b = max a b := (max_def a b).symm

theorem methodBonus_nonneg (m : String) : 0 ≤ methodBonus m := by
  unfold methodBonus
  split_ifs <;> norm_num

theorem calculate_confidence_nonneg (r : ResultView) : 0 ≤ calculate_confidence r := by
  unfold calculate_confidence
  rw [pymin_eq_min]
  have h := methodBonus_nonneg r.method
  refine le_min ?_ zero_le_one
  split_ifs <;> linarith

theorem calculate_confidence_le_one (r : ResultView) : calculate_confidence r ≤ 1 := by
  unfold calculate_confidence
  rw [pymin_eq_min]
  exact min_le_right _ _

theorem calculate_confidence_floor (r : ResultView)
    (h : 2/10 ≤ methodBonus r.method) : 7/10 ≤ calculate_confidence r := by
  unfold calculate_confidence
  rw [pymin_eq_min]
  refine le_min ?_ (by norm_num)
  split_ifs <;> linarith

/-! ## C1 — the two confidence scorers -/

/-- C1, counterexample: on a result whose `table_data` is non-empty but whose
`record_count` is 0 (as every chat-flow result dict is, since none carries a
`record_count` key), the chat-flow scorer gives 0.9 while the
smart-query-flow scorer — for the same result and a classification with the
same method — gives 0.8: the two scorers are not extensionally equal. -/
theorem C1_scorers_differ :
    calculate_confidence exViewTable = 9/10 ∧
    calculate_confidence_score exViewTable "SQL" = 8/10 ∧
    calculate_confidence exViewTable ≠ calculate_confidence_score exViewTable "SQL" := by
  refine ⟨?_, ?_, ?_⟩ <;>
    norm_num [calculate_confidence, calculate_confidence_score, exViewTable,
      methodBonus, pymin]

/-- C1, amended: both scorers compute
`min (0.5 + method bonus + 0.1·[more than one data source] + 0.1·[non-empty], 1)`
— which also equals the specification's clamped formula, the lower clamp
being redundant — but the chat-flow scorer takes the method from the result
and tests `table_data`, while the smart-query scorer takes the method from
the classification and tests `record_count`.  Whenever the result's method
equals the classification's and `table_data` is non-empty iff
`record_count > 0`, the two scorers agree.  (This condition is sufficient,
not necessary: saturation of the 1.0 cap, or two method/emptiness
combinations that happen to sum to the same bonus, can make the scorers
agree even when it fails.) -/
theorem C1_scorers_agree (r : ResultView) (intentMethod : String)
    (hm : r.method = intentMethod)
    (ht : 0 < r.table_len ↔ 0 < r.record_count) :
    calculate_confidence r = calculate_confidence_score r intentMethod ∧
    calculate_confidence r = spec_confidence r := by
  constructor
  · unfold calculate_confidence calculate_confidence_score
    rw [hm]
    congr 1
    congr 1
    exact if_congr ht rfl rfl
  · unfold spec_confidence
    have h0 : 0 ≤ calculate_confidence r := calculate_confidence_nonneg r
    unfold calculate_confidence at h0 ⊢
    rw [pymax_eq_max]
    exact (max_eq_right h0).symm

/-- C1, witness for `C1_scorers_agree` at a concrete result. -/
theorem C1_scorers_agree_witness :
    calculate_confidence exViewEmpty = calculate_confidence_score exViewEmpty "RAG" :=
  (C1_scorers_agree exViewEmpty "RAG" rfl (by decide)).1

/-! ## C4 — the rule-based fallback classifier -/

/-- C4: the rule-based fallback classification is a pure deterministic
function of the lower-cased query text, and its method is exactly the
specification's decision rule over the three cue counts: HYBRID if the
hybrid-cue count is positive and the SQL or RAG count is; otherwise SQL
when the SQL count is at least the RAG count; otherwise RAG. -/
theorem C4_rule_based_method (q q2 : String) (h : pyLower q = pyLower q2) :
    rule_based_analysis q = rule_based_analysis q2 ∧
    (rule_based_analysis q).method =
      specDecisionRule (countCues sql_keywords (pyLower q))
        (countCues rag_keywords (pyLower q)) (countCues hybrid_keywords (pyLower q)) := by
  constructor
  · unfold rule_based_analysis
    rw [h]
  · rfl

/-- C4, witness: the classifier at two spellings of one query. -/
theorem C4_rule_based_method_witness :
    rule_based_analysis "Total Education Budget" = rule_based_analysis "total education budget" ∧
    (rule_based_analysis "Total Education Budget").method = "SQL" :=
  ⟨(C4_rule_based_method "Total Education Budget" "total education budget" (by decide)).1,
   by decide⟩

/-! ## C5 — fiscal-year entity extraction -/

/-- C5, counterexample: (a) the bare year 2029 — 4-digit and ≥ 2023 — is not
in the fixed year vocabulary and yields no `fiscal_year` entity at all;
(b) the explicit label "2021-22" is not taken verbatim (it yields nothing:
it is outside the fixed label list and its leading year is < 2023); (c) a
text containing the bare year 2024 need not yield "2024-25": a later year
in the fixed scan order overwrites it. -/
theorem C5_fiscal_year_cex :
    extractedFiscalYear "2029" = none ∧
    extractedFiscalYear "report for 2021-22" = none ∧
    extractedFiscalYear "compare 2024 and 2025 budgets" = some "2025-26" := by
  decide

/-- C5, amended: year normalization only covers the fixed vocabulary
2020–2028 (of which those ≥ 2023 produce a label): a query that is exactly
a bare listed year ≥ 2023 yields `fiscal_year = "YYYY-(YY+1)"`; a query
that is exactly one of the six listed `"YYYY-YY"` labels keeps it verbatim;
and the spec's own free-text example normalizes "2025" to "2025-26".  When
several listed years occur, the last one in the fixed scan order wins
(see the counterexample). -/
theorem C5_fiscal_year_amended :
    (∀ y ∈ [2023, 2024, 2025, 2026, 2027, 2028],
      extractedFiscalYear (toString y) = some (fiscalLabelOf y)) ∧
    (∀ fy ∈ fiscal_year_labels, extractedFiscalYear fy = some fy) ∧
    extractedFiscalYear "What is the total education budget for 2025" = some "2025-26" := by
  decide

/-- C5, witness for `C5_fiscal_year_amended`: the bare year 2025 and the
verbatim label "2024-25". -/
theorem C5_fiscal_year_amended_witness :
    extractedFiscalYear (toString 2025) = some (fiscalLabelOf 2025) ∧
    extractedFiscalYear "2024-25" = some "2024-25" :=
  ⟨C5_fiscal_year_amended.1 2025 (by decide),
   C5_fiscal_year_amended.2.1 "2024-25" (by decide)⟩

/-! ## C8 — the relevance score -/

/-- C8: for every query and document content, the relevance score is
0.6 · Jaccard + 0.4 · keyword-density clamped to [0, 1] (exactly the
specification's formula, the lower clamp being redundant), lies in [0, 1],
is 0 when either token set is empty, and is 0 when the token sets do not
overlap. -/
theorem C8_relevance (query content : String) :
    0 ≤ calculate_relevance query content ∧
    calculate_relevance query content ≤ 1 ∧
    calculate_relevance query content = spec_relevance query content ∧
    ((tokenSet query = ∅ ∨ tokenSet content = ∅) → calculate_relevance query content = 0) ∧
    (tokenSet query ∩ tokenSet content = ∅ → calculate_relevance query content = 0) := by
  by_cases h : tokenSet query = ∅ ∨ tokenSet content = ∅
  · simp only [calculate_relevance, spec_relevance, if_pos h]
    norm_num
  · have hq : tokenSet query ≠ ∅ := fun e => h (Or.inl e)
    have hd : tokenSet content ≠ ∅ := fun e => h (Or.inr e)
    have hqne : (tokenSet query).Nonempty := Finset.nonempty_iff_ne_empty.mpr hq
    have hdne : (tokenSet content).Nonempty := Finset.nonempty_iff_ne_empty.mpr hd
    have hucard : 0 < (tokenSet query ∪ tokenSet content).card :=
      Finset.card_pos.mpr ⟨hqne.choose, Finset.mem_union_left _ hqne.choose_spec⟩
    have hu : tokenSet query ∪ tokenSet content ≠ ∅ :=
      Finset.nonempty_iff_ne_empty.mp (Finset.card_pos.mp hucard)
    have hdcard : 0 < (tokenSet content).card := Finset.card_pos.mpr hdne
    have hU : (0:ℚ) < ((tokenSet query ∪ tokenSet content).card : ℚ) := by
      exact_mod_cast hucard
    have hD : (0:ℚ) < ((tokenSet content).card : ℚ) := by exact_mod_cast hdcard
    have hI0 : (0:ℚ) ≤ ((tokenSet query ∩ tokenSet content).card : ℚ) := by positivity
    have hIU : ((tokenSet query ∩ tokenSet content).card : ℚ)
        ≤ ((tokenSet query ∪ tokenSet content).card : ℚ) := by
      exact_mod_cast Finset.card_le_card
        ((Finset.inter_subset_left).trans Finset.subset_union_left)
    have hID : ((tokenSet query ∩ tokenSet content).card : ℚ)
        ≤ ((tokenSet content).card : ℚ) := by
      exact_mod_cast Finset.card_le_card Finset.inter_subset_right
    have hJ0 : (0:ℚ) ≤ ((tokenSet query ∩ tokenSet content).card : ℚ)
        / ((tokenSet query ∪ tokenSet content).card : ℚ) := div_nonneg hI0 hU.le
    have hK0 : (0:ℚ) ≤ ((tokenSet query ∩ tokenSet content).card : ℚ)
        / ((tokenSet content).card : ℚ) := div_nonneg hI0 hD.le
    have hJ1 : ((tokenSet query ∩ tokenSet content).card : ℚ)
        / ((tokenSet query ∪ tokenSet content).card : ℚ) ≤ 1 := (div_le_one hU).mpr hIU
    have hK1 : ((tokenSet query ∩ tokenSet content).card : ℚ)
        / ((tokenSet content).card : ℚ) ≤ 1 := (div_le_one hD).mpr hID
    have hX0 : (0:ℚ) ≤ ((tokenSet query ∩ tokenSet content).card : ℚ)
          / ((tokenSet query ∪ tokenSet content).card : ℚ) * (6/10)
        + ((tokenSet query ∩ tokenSet content).card : ℚ)
          / ((tokenSet content).card : ℚ) * (4/10) := by linarith
    simp only [calculate_relevance, spec_relevance, if_neg h, if_neg hu, if_neg hd,
      pymin_eq_min, pymax_eq_max]
    refine ⟨le_min hX0 zero_le_one, min_le_right _ _, ?_, fun hcon => absurd hcon h, ?_⟩
    · have hXX : (6:ℚ)/10 * ((tokenSet query ∩ tokenSet content).card : ℚ)
            / ((tokenSet query ∪ tokenSet content).card : ℚ)
          + 4/10 * ((tokenSet query ∩ tokenSet content).card : ℚ)
            / ((tokenSet content).card : ℚ)
          = ((tokenSet query ∩ tokenSet content).card : ℚ)
            / ((tokenSet query ∪ tokenSet content).card : ℚ) * (6/10)
          + ((tokenSet query ∩ tokenSet content).card : ℚ)
            / ((tokenSet content).card : ℚ) * (4/10) := by ring
      rw [hXX]
      exact (max_eq_right (le_min hX0 zero_le_one)).symm
    · intro hint
      simp only [hint, Finset.card_empty, Nat.cast_zero, zero_div, zero_mul, add_zero]
      norm_num

/-- C8, witness for `C8_relevance`: an empty query token set, and disjoint
token sets, both score 0. -/
theorem C8_relevance_witness :
    calculate_relevance "" "beta" = 0 ∧ calculate_relevance "alpha" "beta" = 0 :=
  ⟨(C8_relevance "" "beta").2.2.2.1 (Or.inl (by decide)),
   (C8_relevance "alpha" "beta").2.2.2.2 (by decide)⟩

/-! ## C9 — idempotent indexing -/

theorem vectorizeStep_skip (store : List Doc) (st rid text : String) (now : ℕ)
    (h : ∃ d ∈ store, d.content_hash = sha256 text) :
    vectorizeStep store st rid text now = store := by
  obtain ⟨d, hd, hh⟩ := h
  have hany : (store.any fun d => d.content_hash = sha256 text) = true :=
    List.any_eq_true.mpr ⟨d, hd, decide_eq_true hh⟩
  simp only [vectorizeStep, hany, if_true]

theorem vectorizeStep_idem (store : List Doc) (st rid text : String) (n1 n2 : ℕ) :
    vectorizeStep (vectorizeStep store st rid text n1) st rid text n2
      = vectorizeStep store st rid text n1 := by
  unfold vectorizeStep
  by_cases h : (store.any fun d => d.content_hash = sha256 text) = true
  · simp [h]
  · simp [h, List.any_append]

/-- C9: for each of the three record types, indexing a record whose canonical
text coincides with the text of a document already in a well-formed store
(each stored hash is the hash of its own text) leaves the store — hence its
size and its hash set — unchanged; and indexing twice equals indexing once,
for every store. -/
theorem C9_reindex_noop (store : List Doc) (f : FinanceRecord) (h : HRRecord)
    (p : ProcurementRecord) (n1 n2 : ℕ)
    (wf : ∀ d ∈ store, d.content_hash = sha256 d.content_text) :
    ((∃ d ∈ store, d.content_text = financeCanonicalText f) →
      vectorize_finance_record store f n1 = store) ∧
    (vectorize_finance_record (vectorize_finance_record store f n1) f n2
      = vectorize_finance_record store f n1) ∧
    ((∃ d ∈ store, d.content_text = hrCanonicalText h) →
      vectorize_hr_record store h n1 = store) ∧
    (vectorize_hr_record (vectorize_hr_record store h n1) h n2
      = vectorize_hr_record store h n1) ∧
    ((∃ d ∈ store, d.content_text = procurementCanonicalText p) →
      vectorize_procurement_record store p n1 = store) ∧
    (vectorize_procurement_record (vectorize_procurement_record store p n1) p n2
      = vectorize_procurement_record store p n1) := by
  refine ⟨?_, vectorizeStep_idem store _ _ _ n1 n2, ?_,
    vectorizeStep_idem store _ _ _ n1 n2, ?_, vectorizeStep_idem store _ _ _ n1 n2⟩ <;>
  · rintro ⟨d, hd, hdt⟩
    exact vectorizeStep_skip store _ _ _ n1 ⟨d, hd, by rw [wf d hd, hdt]⟩

/-- C9, witness for `C9_reindex_noop` on a store holding one finance
document. -/
theorem C9_reindex_noop_witness :
    vectorize_finance_record exStore exFinanceRecord 1 = exStore ∧
    vectorize_hr_record (vectorize_hr_record exStore exHRRecord 1) exHRRecord 2
      = vectorize_hr_record exStore exHRRecord 1 :=
  have wf : ∀ d ∈ exStore, d.content_hash = sha256 d.content_text := by
    intro d hd
    rcases List.mem_singleton.mp hd with rfl
    rfl
  have hmem : ∃ d ∈ exStore, d.content_text = financeCanonicalText exFinanceRecord :=
    ⟨⟨"finance_records", toString exFinanceRecord.id,
      financeCanonicalText exFinanceRecord,
      sha256 (financeCanonicalText exFinanceRecord), 0, true⟩,
     List.mem_singleton.mpr rfl, rfl⟩
  ⟨(C9_reindex_noop exStore exFinanceRecord exHRRecord exProcurementRecord 1 2 wf).1 hmem,
   (C9_reindex_noop exStore exFinanceRecord exHRRecord exProcurementRecord 1 2 wf).2.2.2.1⟩

/-! ## C6 — top-N aggregation -/

theorem top_pipeline_le_sorted (rows : List LedgerRow) :
    (((sortByDesc Group.total_amount (groupSums tripleKey (nonNullRows rows))).take 10).map
      (fun g => TopRow.mk (orUnknown g.key.1) (orUnknown g.key.2.1)
        (orUnknown g.key.2.2) g.total_amount)).length ≤ 10 ∧
    List.Sorted (keyDesc TopRow.amount)
      (((sortByDesc Group.total_amount (groupSums tripleKey (nonNullRows rows))).take 10).map
        (fun g => TopRow.mk (orUnknown g.key.1) (orUnknown g.key.2.1)
          (orUnknown g.key.2.2) g.total_amount)) := by
  constructor
  · rw [List.length_map, List.length_take]
    exact min_le_left _ _
  · have hs : List.Sorted (keyDesc Group.total_amount)
        ((sortByDesc Group.total_amount (groupSums tripleKey (nonNullRows rows))).take 10) :=
      List.Pairwise.sublist (List.take_sublist _ _)
        (List.sorted_insertionSort _ _)
    exact List.pairwise_map.mpr hs

/-- C6, counterexample: on a ledger whose two groups have equal totals and
arrive in descending-name order, both top-expenses aggregations keep the
ties in that (database/scan) order — "B" before "A" — so equal amounts are
not resolved by ascending group-name. -/
theorem C6_tie_not_ascending :
    (get_top_expenses [rowB, rowA]).breakdown.map TopRow.portfolio = ["B", "A"] ∧
    (get_top_expenses [rowB, rowA]).breakdown.map TopRow.amount = [5, 5] ∧
    ¬ tieBreakAscending (get_top_expenses [rowB, rowA]).breakdown ∧
    ¬ tieBreakAscending (get_top_expenses_analysis [rowB, rowA]).breakdown := by
  have hB : orUnknown (some "B") = "B" := by decide
  have hA : orUnknown (some "A") = "A" := by decide
  have hD : orUnknown (some "D") = "D" := by decide
  have hP : orUnknown (some "P") = "P" := by decide
  have hbd : (get_top_expenses [rowB, rowA]).breakdown
      = [TopRow.mk "B" "D" "P" 5, TopRow.mk "A" "D" "P" 5] := by
    norm_num [get_top_expenses, sortByDesc, groupSums, addToGroups, nonNullRows,
      tripleKey, keyDesc, rowB, rowA, List.insertionSort, List.orderedInsert,
      hB, hA, hD, hP]
  have hbd2 : (get_top_expenses_analysis [rowB, rowA]).breakdown
      = [TopRow.mk "B" "D" "P" 5, TopRow.mk "A" "D" "P" 5] := by
    norm_num [get_top_expenses_analysis, sortByDesc, groupSums, addToGroups, nonNullRows,
      tripleKey, keyDesc, rowB, rowA, List.insertionSort, List.orderedInsert,
      hB, hA, hD, hP]
  refine ⟨by rw [hbd]; rfl, by rw [hbd]; rfl, ?_, ?_⟩
  · rw [hbd]
    intro hasc
    have h1 := (List.pairwise_cons.mp hasc).1 _ (List.mem_cons_self _ _) rfl
    exact absurd h1 (by decide)
  · rw [hbd2]
    intro hasc
    have h1 := (List.pairwise_cons.mp hasc).1 _ (List.mem_cons_self _ _) rfl
    exact absurd h1 (by decide)

/-- C6, amended: both top-expenses aggregations return at most 10 breakdown
rows, sorted by aggregate amount descending; the relative order of rows
with equal amounts is the incoming (database) order, not an ascending
group-name tie-break. -/
theorem C6_top_expenses_sorted (rows : List LedgerRow) :
    (get_top_expenses rows).breakdown.length ≤ 10 ∧
    List.Sorted (keyDesc TopRow.amount) (get_top_expenses rows).breakdown ∧
    (get_top_expenses_analysis rows).breakdown.length ≤ 10 ∧
    List.Sorted (keyDesc TopRow.amount) (get_top_expenses_analysis rows).breakdown :=
  ⟨(top_pipeline_le_sorted rows).1, (top_pipeline_le_sorted rows).2,
   (top_pipeline_le_sorted rows).1, (top_pipeline_le_sorted rows).2⟩

/-! ## C7 — document search -/

/-- C7, counterexample: (a) with a table filter, the filter is OR-ed with
the word conditions, so a search restricted to `finance_records` still
returns an `hr_records` document that matches a query word — the candidate
set is not restricted to one source table; (b) with no filter and no query
token longer than 2 characters, the empty condition matches every document,
so a document containing no query token at all is returned. -/
theorem C7_search_cex :
    (search_documents "contract" (some "finance_records") [exHrDoc]).map Hit.source_table
      = ["hr_records"] ∧
    (search_documents "a of to" none [exFinDoc]).map Hit.source_table
      = ["finance_records"] := by
  decide

/-- C7, amended: every search returns at most `top_k = 5` hits, sorted by
relevance descending; each hit comes from a stored document whose source
record resolves and which satisfies the built query condition — namely
(source table equals the filter, when given) OR (the canonical text
contains some lower-cased query token of length > 2), the empty condition
matching everything when there is no filter and no such token. -/
theorem C7_search_shape (query : String) (tf : Option String) (docs : List Doc) :
    (search_documents query tf docs).length ≤ 5 ∧
    List.Sorted (keyDesc Hit.relevance_score) (search_documents query tf docs) ∧
    ∀ h ∈ search_documents query tf docs, ∃ d ∈ docs,
      searchCondition tf ((pyWords query).filter (fun w => 2 < w.length)) d = true ∧
      d.resolvable = true ∧
      h = Hit.mk d.source_table d.record_id d.content_text
        (calculate_relevance query d.content_text) := by
  have hperm : List.Perm (search_documents query tf docs)
      (((sortByDesc Doc.created_at (docs.filter
          (searchCondition tf ((pyWords query).filter (fun w => 2 < w.length))))).take
        rag_top_k).filterMap
        (fun d => if d.resolvable then some (Hit.mk d.source_table d.record_id
          d.content_text (calculate_relevance query d.content_text)) else none)) :=
    List.perm_insertionSort _ _
  refine ⟨?_, List.sorted_insertionSort _ _, ?_⟩
  · rw [hperm.length_eq]
    refine le_trans (List.length_filterMap_le _ _) ?_
    rw [List.length_take]
    exact min_le_left _ _
  · intro h hh
    obtain ⟨d, hdmem, hdf⟩ := List.mem_filterMap.mp (hperm.mem_iff.mp hh)
    have hdtake : d ∈ sortByDesc Doc.created_at (docs.filter
        (searchCondition tf ((pyWords query).filter (fun w => 2 < w.length)))) :=
      (List.take_sublist _ _).subset hdmem
    have hdfilter : d ∈ docs.filter
        (searchCondition tf ((pyWords query).filter (fun w => 2 < w.length))) :=
      (List.perm_insertionSort _ _).mem_iff.mp hdtake
    obtain ⟨hddocs, hcond⟩ := List.mem_filter.mp hdfilter
    by_cases hres : d.resolvable
    · rw [if_pos hres] at hdf
      exact ⟨d, hddocs, hcond, hres, (Option.some.inj hdf).symm⟩
    · rw [if_neg hres] at hdf
      exact absurd hdf (by simp)

/-- C7, witness for `C7_search_shape`: the bound, and the provenance of the
hit returned on a one-document index. -/
theorem C7_search_shape_witness :
    (search_documents "contract" none [exHrDoc]).length ≤ 5 ∧
    (∃ d ∈ [exHrDoc], searchCondition none ["contract"] d = true ∧ d.resolvable = true) := by
  refine ⟨(C7_search_shape "contract" none [exHrDoc]).1, ?_⟩
  have hmap : (search_documents "contract" none [exHrDoc]).map Hit.source_table
      = ["hr_records"] := by decide
  cases hsd : search_documents "contract" none [exHrDoc] with
  | nil => rw [hsd] at hmap; simp at hmap
  | cons a t =>
    obtain ⟨d, hd, hcond, hres, _⟩ := (C7_search_shape "contract" none [exHrDoc]).2.2 a
      (by rw [hsd]; exact List.mem_cons_self _ _)
    exact ⟨d, hd, hcond, hres⟩

/-! ## C2 — percentages of total -/

theorem except_bind_ok {ε α β : Type} (a : α) (f : α → Except ε β) :
    (Except.ok a >>= f) = f a := rfl

theorem except_bind_error {ε α β : Type} (e : ε) (f : α → Except ε β) :
    ((Except.error e : Except ε α) >>= f) = Except.error e := rfl

theorem except_pure {ε α : Type} (a : α) : (pure a : Except ε α) = Except.ok a := rfl

theorem addToGroups_ne_nil {κ : Type} [DecidableEq κ] (gs : List (Group κ)) (k : κ)
    (a : ℚ) : addToGroups gs k a ≠ [] := by
  cases gs with
  | nil => simp [addToGroups]
  | cons g t => unfold addToGroups; split <;> simp

theorem addToGroups_sum {κ : Type} [DecidableEq κ] (gs : List (Group κ)) (k : κ)
    (a : ℚ) : ((addToGroups gs k a).map Group.total_amount).sum
      = (gs.map Group.total_amount).sum + a := by
  induction gs with
  | nil => simp [addToGroups]
  | cons g t ih =>
    unfold addToGroups
    split
    · simp only [List.map_cons, List.sum_cons]
      ring
    · simp only [List.map_cons, List.sum_cons, ih]
      ring

theorem foldl_groups_sum {κ : Type} [DecidableEq κ] (key : LedgerRow → κ)
    (l : List LedgerRow) : ∀ gs : List (Group κ),
    (((l.foldl (fun gs r => match r.amount with
        | none => gs
        | some a => addToGroups gs (key r) a) gs)).map Group.total_amount).sum
      = (gs.map Group.total_amount).sum + sumAmounts l := by
  induction l with
  | nil => intro gs; simp [sumAmounts]
  | cons r t ih =>
    intro gs
    cases hr : r.amount with
    | none =>
      simp only [List.foldl_cons, hr]
      rw [ih gs]
      simp [sumAmounts, List.filterMap_cons, hr]
    | some a =>
      simp only [List.foldl_cons, hr]
      rw [ih (addToGroups gs (key r) a), addToGroups_sum]
      simp only [sumAmounts, List.filterMap_cons, hr, List.sum_cons]
      ring

theorem groupSums_sum {κ : Type} [DecidableEq κ] (key : LedgerRow → κ)
    (l : List LedgerRow) :
    ((groupSums key l).map Group.total_amount).sum = sumAmounts l := by
  have h := foldl_groups_sum key l []
  simpa [groupSums] using h

theorem foldl_groups_ne_nil {κ : Type} [DecidableEq κ] (key : LedgerRow → κ)
    (l : List LedgerRow) : ∀ gs : List (Group κ), gs ≠ [] →
    (l.foldl (fun gs r => match r.amount with
        | none => gs
        | some a => addToGroups gs (key r) a) gs) ≠ [] := by
  induction l with
  | nil => intro gs h; simpa
  | cons r t ih =>
    intro gs h
    cases hr : r.amount with
    | none => simp only [List.foldl_cons, hr]; exact ih gs h
    | some a => simp only [List.foldl_cons, hr]; exact ih _ (addToGroups_ne_nil gs (key r) a)

theorem groupSums_ne_nil {κ : Type} [DecidableEq κ] (key : LedgerRow → κ)
    (rows : List LedgerRow) (h : nonNullRows rows ≠ []) :
    groupSums key (nonNullRows rows) ≠ [] := by
  cases hnn : nonNullRows rows with
  | nil => exact absurd hnn h
  | cons r t =>
    have hr : r.amount ≠ none := by
      have hm : r ∈ nonNullRows rows := hnn ▸ List.mem_cons_self _ _
      exact of_decide_eq_true (List.mem_filter.mp hm).2
    obtain ⟨a, ha⟩ := Option.ne_none_iff_exists'.mp hr
    unfold groupSums
    simp only [List.foldl_cons, ha]
    exact foldl_groups_ne_nil key t _ (addToGroups_ne_nil [] (key r) a)

theorem sortByDesc_sum {α : Type} (f : α → ℚ) (g : α → ℚ) (l : List α) :
    ((sortByDesc f l).map g).sum = (l.map g).sum :=
  ((List.perm_insertionSort (keyDesc f) l).map g).sum_eq

theorem sortByDesc_ne_nil {α β : Type} [LinearOrder β] (f : α → β) (l : List α)
    (h : l ≠ []) : sortByDesc f l ≠ [] := by
  intro hc
  apply h
  have h2 : (sortByDesc f l).length = l.length :=
    (List.perm_insertionSort (keyDesc f) l).length_eq
  rw [hc] at h2
  exact List.length_eq_zero.mp h2.symm

theorem pctLoop_ok (total : ℚ) (h : total ≠ 0) (l : List (Group (Option String))) :
    pctLoop total l = Except.ok (l.map (fun g =>
      PortfolioRow.mk (orUnknown g.key) g.total_amount g.count
        (pyRound 2 (g.total_amount / total * 100)))) := by
  induction l with
  | nil => rfl
  | cons g t ih =>
    simp only [pctLoop]
    rw [show pctOfTotal total g.total_amount
        = Except.ok (pyRound 2 (g.total_amount / total * 100)) from if_neg h, ih]
    rfl

theorem pctLoop_error (total : ℚ) (h : total = 0) (g : Group (Option String))
    (t : List (Group (Option String))) :
    pctLoop total (g :: t) = Except.error "ZeroDivisionError: float division by zero" := by
  simp only [pctLoop]
  rw [show pctOfTotal total g.total_amount
      = Except.error "ZeroDivisionError: float division by zero" from if_pos h]
  rfl

/-- C2, amended: in the chat flow (education summary, department comparison)
each breakdown percentage is `amount / total * 100` rounded to **1** decimal
with the zero-total guard, and the functions are total (no exception); in
the smart-query flow the education analysis uses the same guard but rounds
to **2** decimals, and the portfolio comparison rounds to 2 decimals with
**no** guard: with a non-zero total it succeeds with
`round(amount/total*100, 2)` in every row, and with a zero total and a
non-empty row set it raises `ZeroDivisionError`. -/
theorem C2_percentage_amended (rows : List LedgerRow) :
    (∀ p ∈ (get_education_budget_summary rows).breakdown,
      p.percentage = pyRound 1 (if 0 < (get_education_budget_summary rows).total_amount
        then p.amount / (get_education_budget_summary rows).total_amount * 100 else 0)) ∧
    (∀ p ∈ (get_department_comparison rows).breakdown,
      p.percentage = pyRound 1 (if 0 < (get_department_comparison rows).total_amount
        then p.amount / (get_department_comparison rows).total_amount * 100 else 0)) ∧
    (∀ p ∈ (get_education_budget_analysis rows).breakdown,
      p.percentage = pyRound 2 (if 0 < (get_education_budget_analysis rows).total_amount
        then p.amount / (get_education_budget_analysis rows).total_amount * 100 else 0)) ∧
    (sumAmounts (nonNullRows rows) ≠ 0 →
      get_portfolio_comparison_analysis rows = Except.ok
        { total_budget := sumAmounts (nonNullRows rows)
          total_records := ((portfolioGroups rows).map (fun g =>
            PortfolioRow.mk (orUnknown g.key) g.total_amount g.count
              (pyRound 2 (g.total_amount / sumAmounts (nonNullRows rows) * 100)))).length
          breakdown := (portfolioGroups rows).map (fun g =>
            PortfolioRow.mk (orUnknown g.key) g.total_amount g.count
              (pyRound 2 (g.total_amount / sumAmounts (nonNullRows rows) * 100))) }) ∧
    (nonNullRows rows ≠ [] → sumAmounts (nonNullRows rows) = 0 →
      get_portfolio_comparison_analysis rows
        = Except.error "ZeroDivisionError: float division by zero") := by
  have hsum : ((sortByDesc Group.total_amount
      (groupSums LedgerRow.portfolio (nonNullRows rows))).map Group.total_amount).sum
      = sumAmounts (nonNullRows rows) := by
    rw [sortByDesc_sum, groupSums_sum]
  refine ⟨?_, ?_, ?_, ?_, ?_⟩
  · intro p hp
    obtain ⟨g, hg, rfl⟩ := List.mem_map.mp hp
    rfl
  · intro p hp
    obtain ⟨g, hg, rfl⟩ := List.mem_map.mp hp
    rfl
  · intro p hp
    obtain ⟨g, hg, rfl⟩ := List.mem_map.mp hp
    rfl
  · intro htot
    simp only [get_portfolio_comparison_analysis, hsum, pctLoop_ok _ htot]
    rfl
  · intro hne h0
    have h0' : ((sortByDesc Group.total_amount
        (groupSums LedgerRow.portfolio (nonNullRows rows))).map Group.total_amount).sum
        = 0 := by rw [hsum]; exact h0
    have hpa : sortByDesc Group.total_amount
        (groupSums LedgerRow.portfolio (nonNullRows rows)) ≠ [] :=
      sortByDesc_ne_nil _ _ (groupSums_ne_nil _ _ hne)
    cases hpae : sortByDesc Group.total_amount
        (groupSums LedgerRow.portfolio (nonNullRows rows)) with
    | nil => exact absurd hpae hpa
    | cons g t =>
      have hX : ((List.map Group.total_amount (g :: t)).sum : ℚ) = 0 := by
        rw [← hpae]
        exact h0'
      simp only [get_portfolio_comparison_analysis, hpae, pctLoop_error _ hX]
      rfl

/-- C2, counterexample: in the smart-query flow's portfolio comparison, a
single non-null row of amount 0 makes the percentage loop divide by zero
(an exception, where the claim demands percentage 0); and on amounts 1 and
2 the computed percentages are rounded to 2 decimals (66.67), not the 1
decimal (66.7) the claim states. -/
theorem C2_percentage_cex :
    get_portfolio_comparison_analysis [exRowZero]
      = Except.error "ZeroDivisionError: float division by zero" ∧
    get_portfolio_comparison_analysis [exRowA1, exRowB2]
      = Except.ok (PortfolioComparison.mk 3 2
          [PortfolioRow.mk "B" 2 1 (6667/100), PortfolioRow.mk "A" 1 1 (3333/100)]) ∧
    pyRound 1 ((2:ℚ)/3 * 100) = 667/10 ∧
    ((6667:ℚ)/100) ≠ 667/10 := by
  have hB : orUnknown (some "B") = "B" := by decide
  have hA : orUnknown (some "A") = "A" := by decide
  have hg1 : sortByDesc Group.total_amount
      (groupSums LedgerRow.portfolio (nonNullRows [exRowZero]))
      = [Group.mk (some "A") 0 1] := by
    norm_num [sortByDesc, groupSums, nonNullRows, addToGroups, exRowZero,
      List.insertionSort, List.orderedInsert]
  have hg2 : sortByDesc Group.total_amount
      (groupSums LedgerRow.portfolio (nonNullRows [exRowA1, exRowB2]))
      = [Group.mk (some "B") 2 1, Group.mk (some "A") 1 1] := by
    norm_num [sortByDesc, groupSums, nonNullRows, addToGroups, exRowA1, exRowB2,
      List.insertionSort, List.orderedInsert, keyDesc]
  have hr1 : pyRound 2 ((200:ℚ)/3) = 6667/100 := by
    norm_num [pyRound, roundHalfEven]
  have hr2 : pyRound 2 ((100:ℚ)/3) = 3333/100 := by
    norm_num [pyRound, roundHalfEven]
  have hr3 : pyRound 1 ((2:ℚ)/3 * 100) = 667/10 := by
    norm_num [pyRound, roundHalfEven]
  refine ⟨?_, ?_, hr3, by norm_num⟩
  · simp only [get_portfolio_comparison_analysis, hg1]
    rw [show ((List.map Group.total_amount [Group.mk (some "A") 0 1]).sum : ℚ) = 0 by
      norm_num]
    rw [pctLoop_error 0 rfl]
    rfl
  · simp only [get_portfolio_comparison_analysis, hg2]
    rw [show ((List.map Group.total_amount
        [Group.mk (some "B") 2 1, Group.mk (some "A") 1 1]).sum : ℚ) = 3 by norm_num]
    rw [pctLoop_ok 3 (by norm_num)]
    simp only [except_bind_ok, except_pure, List.map_cons, List.map_nil, hA, hB]
    norm_num [hr1, hr2]

/-- C2, witness for `C2_percentage_amended`: the portfolio comparison on
non-zero data, and the exception on all-zero data. -/
theorem C2_percentage_amended_witness :
    (get_portfolio_comparison_analysis [exRowA1, exRowB2]).isOk = true ∧
    get_portfolio_comparison_analysis [exRowZero]
      = Except.error "ZeroDivisionError: float division by zero" := by
  have hc : ∀ a : ℚ, (!decide ((some a : Option ℚ) = none)) = true := fun a => rfl
  constructor
  · rw [(C2_percentage_amended [exRowA1, exRowB2]).2.2.2.1
      (by norm_num [sumAmounts, nonNullRows, exRowA1, exRowB2,
        List.filter_cons, List.filterMap_cons, hc])]
    rfl
  · exact (C2_percentage_amended [exRowZero]).2.2.2.2 (by decide)
      (by norm_num [sumAmounts, nonNullRows, exRowZero,
        List.filter_cons, List.filterMap_cons, hc])

/-! ## C3 — hybrid composition -/

/-- C3, counterexample: when both sub-engines fail (SQL raises, RAG finds
nothing), the hybrid result is still a success-tagged HYBRID dict with both
sides absent, and after `process_query`'s confidence step it carries
confidence 0.9 — not the claimed top-level failure with confidence 0. -/
theorem C3_both_fail_cex :
    (process_sql_query "find records" (SqlEnv.outerError "db down")).success = false ∧
    (process_rag_query "find records" (Except.ok [])).success = false ∧
    (process_query "HYBRID" "find records" (SqlEnv.outerError "db down")
      (Except.ok [])).success = true ∧
    (process_query "HYBRID" "find records" (SqlEnv.outerError "db down")
      (Except.ok [])).sql_result = none ∧
    (process_query "HYBRID" "find records" (SqlEnv.outerError "db down")
      (Except.ok [])).rag_result = none ∧
    (process_query "HYBRID" "find records" (SqlEnv.outerError "db down")
      (Except.ok [])).confidence = 9/10 := by
  have hsd : search_documents "find records" none [] = [] := by
    simp [search_documents, sortByDesc]
  refine ⟨rfl, ?_, rfl, ?_, ?_, ?_⟩
  · simp [process_rag_query, hsd]
  · simp [process_query, process_hybrid_query, process_rag_query, process_sql_query, hsd,
      hybridToTop]
  · simp [process_query, process_hybrid_query, process_rag_query, process_sql_query, hsd,
      hybridToTop]
  · have hns : ¬ (("HYBRID":String) = "SQL") := by decide
    have hnr : ¬ (("HYBRID":String) = "RAG") := by decide
    simp only [process_query]
    norm_num [process_hybrid_query, process_rag_query, process_sql_query, hsd,
      hybridToTop, TopResult.view, calculate_confidence, methodBonus, pymin, hns, hnr]

/-- C3, amended: `_process_hybrid_query` always returns a success-tagged
HYBRID result; a side that succeeded is embedded as-is and a side that
failed is simply absent (`None`, not an error) — in particular, when
exactly one side succeeds the result contains only that side, as claimed,
but when both fail the result still reports success with both sides absent
(the exception path of `process_query` is the only source of a confidence-0
top-level failure). -/
theorem C3_hybrid_composition (sql rag : SubResult) :
    (process_hybrid_query sql rag).method = "HYBRID" ∧
    (process_hybrid_query sql rag).success = true ∧
    (sql.success = true → rag.success = false →
      (process_hybrid_query sql rag).sql_result = some sql ∧
      (process_hybrid_query sql rag).rag_result = none) ∧
    (sql.success = false → rag.success = true →
      (process_hybrid_query sql rag).sql_result = none ∧
      (process_hybrid_query sql rag).rag_result = some rag) ∧
    (sql.success = false → rag.success = false →
      (process_hybrid_query sql rag).sql_result = none ∧
      (process_hybrid_query sql rag).rag_result = none) := by
  refine ⟨rfl, rfl, ?_, ?_, ?_⟩ <;> intro h1 h2 <;>
    simp [process_hybrid_query, h1, h2]

/-- C3, witness for `C3_hybrid_composition` at concrete sub-results. -/
theorem C3_hybrid_composition_witness :
    (process_hybrid_query exSqlOk exRagFail).sql_result = some exSqlOk ∧
    (process_hybrid_query exSqlOk exRagFail).rag_result = none ∧
    (process_hybrid_query exSqlFail exRagOk).rag_result = some exRagOk ∧
    (process_hybrid_query exSqlFail exRagFail).sql_result = none :=
  ⟨((C3_hybrid_composition exSqlOk exRagFail).2.2.1 rfl rfl).1,
   ((C3_hybrid_composition exSqlOk exRagFail).2.2.1 rfl rfl).2,
   ((C3_hybrid_composition exSqlFail exRagOk).2.2.2.1 rfl rfl).2,
   ((C3_hybrid_composition exSqlFail exRagFail).2.2.2.2 rfl rfl).1⟩

/-! ## C10 — the confidence floor of the chat flow -/

theorem process_sql_query_method (q : String) (env : SqlEnv) :
    (process_sql_query q env).method = "SQL" := by
  cases env <;> rfl

theorem process_rag_query_method (q : String) (env : Except String (List Doc)) :
    (process_rag_query q env).method = "RAG" := by
  cases env with
  | error e => rfl
  | ok docs =>
    by_cases h : (search_documents q none docs).length ≠ 0 <;>
      simp [process_rag_query, h]

theorem process_query_method (im q : String) (sqlEnv : SqlEnv)
    (ragEnv : Except String (List Doc)) :
    (process_query im q sqlEnv ragEnv).method = "SQL" ∨
    (process_query im q sqlEnv ragEnv).method = "RAG" ∨
    (process_query im q sqlEnv ragEnv).method = "HYBRID" := by
  unfold process_query
  by_cases h1 : im = "SQL"
  · left
    simp [h1, subToTop, process_sql_query_method]
  by_cases h2 : im = "RAG"
  · right; left
    simp [h1, h2, subToTop, process_rag_query_method]
  · right; right
    simp [h1, h2, hybridToTop, process_hybrid_query]

/-- C10: `process_query` overwrites whatever confidence a sub-engine set
with `_calculate_confidence(result)`; on every non-exception path —
including failed or empty SQL, RAG and HYBRID results — the result's
method is one of SQL/RAG/HYBRID, so the confidence is at least
0.5 + 0.2 = 0.7 (and at most 1); confidence 0 appears only on the
top-level exception path. -/
theorem C10_confidence_floor (intentMethod query : String) (sqlEnv : SqlEnv)
    (ragEnv : Except String (List Doc)) :
    (process_query intentMethod query sqlEnv ragEnv).confidence
      = calculate_confidence (process_query intentMethod query sqlEnv ragEnv).view ∧
    7/10 ≤ (process_query intentMethod query sqlEnv ragEnv).confidence ∧
    (process_query intentMethod query sqlEnv ragEnv).confidence ≤ 1 ∧
    ∀ e : String, (process_query_exception e).confidence = 0 := by
  have hv : (process_query intentMethod query sqlEnv ragEnv).view.method
      = (process_query intentMethod query sqlEnv ragEnv).method := rfl
  refine ⟨rfl, ?_, ?_, fun e => rfl⟩
  · have hb : 2/10 ≤ methodBonus
        (process_query intentMethod query sqlEnv ragEnv).view.method := by
      rcases process_query_method intentMethod query sqlEnv ragEnv with h | h | h
      · rw [hv, h, show methodBonus "SQL" = 3/10 from rfl]; norm_num
      · rw [hv, h, show methodBonus "RAG" = 2/10 from rfl]
      · rw [hv, h, show methodBonus "HYBRID" = 4/10 from rfl]; norm_num
    exact calculate_confidence_floor _ hb
  · exact calculate_confidence_le_one
      (process_query intentMethod query sqlEnv ragEnv).view

end GovHack
